import Mathlib

/-!
Verification of the request dispatch engine of the `evo_api_mocker` mock
server (`src/evo/src-tauri/src/server.rs`).  The Rust code is shallowly
embedded: registries become association lists, machine integers become
`Nat`/`Int` with explicit wrapping where the code wraps, JavaScript and
database library boundaries become explicit parameters or small inductive
types recording exactly the observations the Rust code makes of them.
-/

/-! ## JSON values (model of `serde_json::Value`) -/

inductive JVal where
  | jnull
  | jbool (b : Bool)
  | jnum (q : Rat)
  | jstr (s : String)
  | jarr (xs : List JVal)
  | jobj (fields : List (String × JVal))

/-! ## Mock definitions (`MockApi`, server.rs lines 14-22) -/

structure MockApi where
  id : String
  path : String
  method : String
  response_body : String
  status_code : Nat
  response_type : String
deriving DecidableEq, Repr

/-- The route registry: `AppState.mocks : HashMap<String, MockApi>`,
keyed by `"METHOD /path"`.  Modelled as an association list; the order of
the list stands for the (unspecified) iteration order of the hash map. -/
abbrev Registry := List (String × MockApi)

/-- Lookup `mocks.get(&key)` on the registry map. -/
def lookup_mock (mocks : Registry) (key : String) : Option MockApi :=
  (mocks.find? (fun kv => kv.1 = key)).map (fun kv => kv.2)

/-- Model of `http::StatusCode::from_u16`: succeeds exactly for codes in 100..=999
(the `http` crate accepts any three-digit code). -/
def status_from_u16 (n : Nat) : Option Nat :=
  if 100 ≤ n ∧ n ≤ 999 then some n else none

/-! ## Responses produced by the server -/

/-- The body of a locally produced response: a JSON payload
(`Json(json).into_response()`), a plain text body, or an HTML body
(`Html(body).into_response()`). -/
inductive RespBody where
  | bjson (j : JVal)
  | btext (s : String)
  | bhtml (s : String)

structure Resp where
  status : Nat
  body : RespBody

/-- Outcome of `process_request` before any network or interpreter work:
either a locally built response, the decision to run the js sandbox on a
definition, or the decision to forward to a proxy target URL. -/
inductive ProcessResult where
  | response (r : Resp)
  | jsExec (m : MockApi)
  | proxyForward (target : String)

/-! ## Static responders and the exact-match branch (server.rs lines 184-619) -/

/-- The `match mock.response_type.as_str()` dispatch of server.rs lines
188-619 for an exact-matched definition.  `parse` stands for
`serde_json::from_str::<serde_json::Value>`. -/
def mock_response (parse : String → Option JVal) (m : MockApi) : ProcessResult :=
  let status := (status_from_u16 m.status_code).getD 200
  match m.response_type with
  | "json" =>
    match parse m.response_body with
    | some j => .response ⟨status, .bjson j⟩
    | none => .response ⟨status, .btext m.response_body⟩
  | "html" => .response ⟨status, .bhtml m.response_body⟩
  | "js" => .jsExec m
  | "proxy" => .proxyForward m.response_body
  | "raw" => .response ⟨status, .btext m.response_body⟩
  | _ => .response ⟨status, .btext m.response_body⟩

/-! ## String primitives used by the matcher

Rust's `ends_with('*')`, `&s[..len-1]`, `starts_with` and `&path[len..]`
are byte-level; on the `*`-terminated ASCII patterns involved they
coincide with these character-level operations, written over `List Char`
so that they reduce structurally. -/

/-- Rust `s.ends_with(star)`. -/
def ends_with_star (s : String) : Bool :=
  s.toList.getLast? = some '*'

/-- Rust `&s[..s.len() - 1]`: the path minus its trailing `*`. -/
def strip_last (s : String) : String :=
  String.mk s.toList.dropLast

/-- Rust `path.starts_with(pre)`. -/
def starts_with (path pre : String) : Bool :=
  pre.toList.isPrefixOf path.toList

/-- Rust `&path[n..]`. -/
def str_drop (s : String) (n : Nat) : String :=
  String.mk (s.toList.drop n)

/-! ## Wildcard proxy scan (server.rs lines 624-637) -/

/-- The `mocks.values().find_map(..)` scan: first definition of type
`proxy` whose path ends in `*`, whose method is `ANY` or the request
method, and whose path minus the `*` is a prefix of the request path;
yields `(response_body, prefix length)`. -/
def find_wildcard_proxy (mocks : Registry) (method path : String) : Option (String × Nat) :=
  mocks.findSome? (fun kv =>
    let mock := kv.2
    if mock.response_type = "proxy" ∧ ends_with_star mock.path then
      if mock.method = "ANY" ∨ mock.method = method then
        let pre := strip_last mock.path
        if starts_with path pre then some (mock.response_body, pre.length) else none
      else none
    else none)

/-- Resolution outcome of the matcher: an exact (or `ANY`) registry hit,
or a wildcard proxy hit carrying the target base and matched prefix
length. -/
inductive Matched where
  | exact (m : MockApi)
  | wildcard (target_base : String) (plen : Nat)
deriving DecidableEq, Repr

/-- The matcher as the code performs it: exact key, then `ANY` key, then
the wildcard proxy scan (server.rs lines 168-182 and 624-637). -/
def match_request (mocks : Registry) (method path : String) : Option Matched :=
  match lookup_mock mocks (method ++ " " ++ path) with
  | some m => some (.exact m)
  | none =>
  match lookup_mock mocks ("ANY " ++ path) with
  | some m => some (.exact m)
  | none =>
  match find_wildcard_proxy mocks method path with
  | some (base, plen) => some (.wildcard base plen)
  | none => none

/-- Predicate from the spec's words for step 3 of the matcher: definition
has `response_type == proxy`, a path ending in `*`, method `ANY` or equal
to the request method, and the request path starts with the definition's
path minus the trailing `*`. -/
def wildcard_matches (method path : String) (mock : MockApi) : Bool :=
  mock.response_type = "proxy" && ends_with_star mock.path &&
    (mock.method = "ANY" || mock.method = method) &&
    starts_with path (strip_last mock.path)

/-- The matcher as the spec words it: exact match on `"METHOD path"`,
then on `"ANY path"`, then the first registered definition satisfying
`wildcard_matches`. -/
def resolve_spec (mocks : Registry) (method path : String) : Option Matched :=
  match lookup_mock mocks (method ++ " " ++ path) with
  | some m => some (.exact m)
  | none =>
  match lookup_mock mocks ("ANY " ++ path) with
  | some m => some (.exact m)
  | none =>
  match (mocks.map (fun kv => kv.2)).find? (wildcard_matches method path) with
  | some m => some (.wildcard m.response_body (strip_last m.path).length)
  | none => none

/-! ## Proxy target URL construction (server.rs lines 639-653) -/

/-- Rust `target_base.trim_end_matches(char of slash)`. -/
def trim_end_slash (s : String) : String :=
  String.mk ((s.toList.reverse.dropWhile (fun c => c = '/')).reverse)

/-- Rust `suffix.trim_start_matches(char of slash)`. -/
def trim_start_slash (s : String) : String :=
  String.mk (s.toList.dropWhile (fun c => c = '/'))

/-- Wildcard target URL as the code builds it: trim the base's trailing
slashes and the suffix's leading slashes; if the trimmed suffix is empty
the trimmed base alone, else `base ++ slash ++ suffix`. -/
def build_target_url (target_base suffix : String) : String :=
  let target_base_trimmed := trim_end_slash target_base
  let suffix_trimmed := trim_start_slash suffix
  if suffix_trimmed = "" then target_base_trimmed
  else target_base_trimmed ++ "/" ++ suffix_trimmed

/-- Wildcard target URL as claim C4 words it: `base ++ slash ++ remainder`
with `base` the response body minus trailing slashes and `remainder` the
suffix minus leading slashes, except that when the suffix itself is empty
the base is used unmodified. -/
def claim_target_url (target_base suffix : String) : String :=
  let base := trim_end_slash target_base
  let remainder := trim_start_slash suffix
  if suffix = "" then base
  else base ++ "/" ++ remainder

/-- Wildcard target URL as amended: the base alone is used whenever the
remainder (the suffix minus leading slashes) is empty, not only when the
suffix is empty. -/
def amended_target_url (target_base suffix : String) : String :=
  let base := trim_end_slash target_base
  let remainder := trim_start_slash suffix
  if remainder = "" then base
  else base ++ "/" ++ remainder

/-! ## Top-level dispatch (`process_request`, server.rs lines 161-693) -/

/-- Function `process_request` up to the interpreter / network boundary.  The
`js` branch is returned as `jsExec`, proxy branches as `proxyForward`
with the target URL the code would contact. -/
def process_request (mocks : Registry) (parse : String → Option JVal)
    (method path : String) : ProcessResult :=
  let key := method ++ " " ++ path
  match match_request mocks method path with
  | some (.exact m) => mock_response parse m
  | some (.wildcard base plen) =>
    .proxyForward (build_target_url base (str_drop path plen))
  | none => .response ⟨404, .btext ("Not Found: " ++ key)⟩

/-! ## Database column decoding (server.rs lines 347-371) -/

/-- Model of an `f64` decoded from a column: `serde_json::Number::from_f64`
succeeds exactly on finite doubles (every finite double is a rational), and
fails on NaN and infinities. -/
inductive F64 where
  | finite (q : Rat)
  | nonFinite
deriving DecidableEq, Repr

/-- Model of `serde_json::Number::from_f64`. -/
def number_from_f64 : F64 → Option Rat
  | .finite q => some q
  | .nonFinite => none

/-- Model of a fetched column as the code observes it: the results of the
six `row.try_get::<T>` probes the code may attempt (`String`, `i64`,
`f64`, `bool`, `i16`, `i32`). -/
structure RawColumn where
  try_text : Option String
  try_i64 : Option Int
  try_f64 : Option F64
  try_bool : Option Bool
  try_i16 : Option Int
  try_i32 : Option Int
deriving Repr

/-- The column-decoding `if let Ok .. else if let Ok ..` chain of
server.rs lines 352-367, producing the JSON value marshalled to the
script. -/
def decode_column (c : RawColumn) : JVal :=
  match c.try_text with
  | some v => .jstr v
  | none =>
  match c.try_i64 with
  | some v => .jnum v
  | none =>
  match c.try_f64 with
  | some v =>
    match number_from_f64 v with
    | some q => .jnum q
    | none => .jnull
  | none =>
  match c.try_bool with
  | some v => .jbool v
  | none =>
  match c.try_i16 with
  | some v => .jnum v
  | none =>
  match c.try_i32 with
  | some v => .jnum v
  | none => .jnull

/-- One decoding attempt, tagged by the type it probed for. -/
inductive Probe where
  | ptext (s : String)
  | pi64 (n : Int)
  | pf64 (f : F64)
  | pbool (b : Bool)
  | pi16 (n : Int)
  | pi32 (n : Int)

/-- The JSON value a successful probe marshals to (an `f64` probe still
goes through `Number::from_f64`, with `Null` on failure). -/
def probe_value : Probe → JVal
  | .ptext s => .jstr s
  | .pi64 n => .jnum n
  | .pf64 f =>
    match number_from_f64 f with
    | some q => .jnum q
    | none => .jnull
  | .pbool b => .jbool b
  | .pi16 n => .jnum n
  | .pi32 n => .jnum n

/-- The probes of a column in the fixed preference order the spec states:
text, 64-bit integer, floating point, boolean, 16-bit integer, 32-bit
integer. -/
def probe_list (c : RawColumn) : List (Option Probe) :=
  [c.try_text.map .ptext, c.try_i64.map .pi64, c.try_f64.map .pf64,
   c.try_bool.map .pbool, c.try_i16.map .pi16, c.try_i32.map .pi32]

/-- Column decoding as the spec words it: take the first probe in
preference order that succeeds; if all fail, the value is null. -/
def decode_column_spec (c : RawColumn) : JVal :=
  match (probe_list c).findSome? id with
  | some p => probe_value p
  | none => .jnull

/-! ## Database bridge (`query_fn` / `execute_fn`, server.rs lines 305-432) -/

/-- Lookup `conns.get(&name).cloned()` on the connection registry
(`AppState.db_connections`).  The pool type is abstract: the core only
ever looks a pool up and hands it to the engine. -/
def lookup_pool {P : Type} (conns : List (String × P)) (name : String) : Option P :=
  (conns.find? (fun kv => kv.1 = name)).map (fun kv => kv.2)

/-- Outcome of an engine call (`fetch_all` / `execute`): rows or a count
on success, the engine's error message (`e.to_string()`) on failure. -/
inductive EngineResult (α : Type) where
  | ok (a : α)
  | err (msg : String)

/-- The error message built for a missing connection name
(server.rs lines 374 and 422). -/
def connection_not_found_msg (name : String) : String :=
  "Connection " ++ "'" ++ name ++ "'" ++ " not found"

/-- A fetched row: named columns. -/
abbrev DbRow := List (String × RawColumn)

/-- Row marshalling of server.rs lines 349-370: each column decoded and
inserted under its name. -/
def row_to_json (row : DbRow) : JVal :=
  .jobj (row.map (fun kv => (kv.1, decode_column kv.2)))

/-- Bridge call `db.query(name, sql)`: resolve the pool, run the engine's
`fetch_all`, marshal rows; `Except.error` is surfaced to the script as a
catchable `JsError` (server.rs lines 324-389). -/
def db_query {P : Type} (conns : List (String × P)) (name _sql : String)
    (engine : P → EngineResult (List DbRow)) : Except String (List JVal) :=
  match lookup_pool conns name with
  | some pool =>
    match engine pool with
    | .ok rows => .ok (rows.map row_to_json)
    | .err e => .error e
  | none => .error (connection_not_found_msg name)

/-- Rust `count as i32` on a `u64`: wrap to 32 bits, then read as two's
complement. -/
def u64_as_i32 (n : Nat) : Int :=
  let m : Nat := n % 2 ^ 32
  if m < 2 ^ 31 then (m : Int) else (m : Int) - 2 ^ 32

/-- Bridge call `db.execute(name, sql)`: resolve the pool, run the engine's
`execute`, return `rows_affected` converted by `as i32`
(server.rs lines 394-431). -/
def db_execute {P : Type} (conns : List (String × P)) (name _sql : String)
    (engine : P → EngineResult Nat) : Except String Int :=
  match lookup_pool conns name with
  | some pool =>
    match engine pool with
    | .ok count => .ok (u64_as_i32 count)
    | .err e => .error e
  | none => .error (connection_not_found_msg name)

/-- Response produced when the script's error is left uncaught
(server.rs line 567): 500 with a body naming the error. -/
def js_error_response (e : String) : Resp :=
  ⟨500, .btext ("JS Error: " ++ e)⟩

/-! ## `response.setStatusCode` (server.rs lines 447-460) -/

/-- A JavaScript number as `arg.as_number()` yields it: a finite double
(every finite double is a rational) or one of the non-finite values. -/
inductive JsNum where
  | nan
  | posInf
  | negInf
  | val (q : Rat)

/-- The first argument of a `setStatusCode` call as the closure observes
it: missing (`args.get(0)` is `None`), present but not numeric
(`as_number()` is `None`), or a number. -/
inductive JsArg where
  | absent
  | nonNumeric
  | numeric (n : JsNum)

/-- Rust `code as u16` on an `f64`: a saturating cast — NaN to 0, values
below 0 to 0, values above 65535 to 65535, otherwise truncation toward
zero. -/
def f64_as_u16 : JsNum → Nat
  | .nan => 0
  | .negInf => 0
  | .posInf => 65535
  | .val q => if q < 0 then 0 else if 65535 < q then 65535 else q.floor.toNat

/-- One `response.setStatusCode` invocation (server.rs lines 448-459):
the pending status is replaced only when the argument is numeric and its
`u16` cast is a valid status code; otherwise it is left unchanged, and the
call never raises a script error. -/
def set_status_code (current : Nat) (arg : JsArg) : Nat :=
  match arg with
  | .absent => current
  | .nonNumeric => current
  | .numeric code =>
    match status_from_u16 (f64_as_u16 code) with
    | some s => s
    | none => current

/-- The status a single call would set, if valid (spec-side notion of a
"validly set value"). -/
def valid_set_value : JsArg → Option Nat
  | .numeric code => status_from_u16 (f64_as_u16 code)
  | _ => none

/-- The last validly set value of a call sequence, if any. -/
def last_valid_set (calls : List JsArg) : Option Nat :=
  calls.reverse.findSome? valid_set_value

/-- The pending status after a js invocation's sequence of
`setStatusCode` calls, starting from the default. -/
def js_final_status (default_status : Nat) (calls : List JsArg) : Nat :=
  calls.foldl set_status_code default_status

/-- Final status of a js invocation for a definition: the pending status
starts at `StatusCode::from_u16(mock.status_code).unwrap_or(OK)`
(server.rs lines 186 and 297) and each call folds over it. -/
def js_response_status (m : MockApi) (calls : List JsArg) : Nat :=
  js_final_status ((status_from_u16 m.status_code).getD 200) calls

/-! ## Script result to response body (server.rs lines 536-568) -/

/-- A JavaScript object result as the code observes it: the result of
calling `JSON.stringify` on it (`none` when stringification fails to
yield a string), and its Rust `Debug` rendering used as fallback. -/
structure ObjVal where
  stringified : Option String
  dbg : String

/-- A non-string, non-object result (number, boolean, undefined, null),
observed through its Rust `Debug` rendering. -/
structure PrimVal where
  dbg : String

/-- A JavaScript string result as the code observes it: the result of
`s.to_std_string()` (`none` when the UTF-16 string holds an unpaired
surrogate and cannot convert to UTF-8 text), and the Rust `Debug`
rendering of the whole value, which line 565 falls back to when the
conversion fails. -/
structure StrVal where
  utf8 : Option String
  dbg : String

/-- The value a completed script evaluation returns. -/
inductive JsResVal where
  | vstr (s : StrVal)
  | vobj (o : ObjVal)
  | vprim (p : PrimVal)

/-- The `Ok(res)` arm of server.rs lines 537-565: a string result whose
`to_std_string()` succeeds is JSON-parsed (verbatim JSON body on success,
the text itself on failure); when the conversion fails control falls
through the `is_object()` test (a string is not an object) to the Debug
rendering of line 565; an object result is JSON-stringified (Debug
fallback); anything else is rendered via Debug. -/
def js_result_response (parse : String → Option JVal) (final_status : Nat)
    (res : JsResVal) : Resp :=
  match res with
  | .vstr s =>
    match s.utf8 with
    | some utf8 =>
      match parse utf8 with
      | some j => ⟨final_status, .bjson j⟩
      | none => ⟨final_status, .btext utf8⟩
    | none => ⟨final_status, .btext s.dbg⟩
  | .vobj o =>
    match o.stringified with
    | some t => ⟨final_status, .btext t⟩
    | none => ⟨final_status, .btext o.dbg⟩
  | .vprim p => ⟨final_status, .btext p.dbg⟩

/-- A concrete unconvertible string result: a JS string holding a lone
surrogate, whose `to_std_string()` fails, observed only through its Debug
rendering. -/
def lone_surrogate_result : StrVal :=
  { utf8 := none, dbg := "String(lone surrogate 0xD800)" }

/-! ## Request log ring buffer and handler epilogue (server.rs lines 24-34, 100-159) -/

structure RequestLog where
  id : String
  method : String
  path : String
  status_code : Nat
  duration_ms : Nat
  timestamp : Nat
  request_body : Option String
  response_body : Option String
deriving DecidableEq, Repr

/-- The ring-buffer insertion of server.rs lines 139-144: push the new
record at the front of the `VecDeque`; if the length now exceeds 100,
drop the back (oldest) entry.  The list head is the front of the deque. -/
def push_log (logs : List RequestLog) (log : RequestLog) : List RequestLog :=
  let logs2 := log :: logs
  if logs2.length > 100 then logs2.dropLast else logs2

/-- An HTTP response as the handler epilogue manipulates it: parts
(status and headers) plus fully materialized body bytes. -/
structure HttpResponse where
  status : Nat
  headers : List (String × String)
  body : List Nat
deriving DecidableEq, Repr

/-- The request record built by the handler (server.rs lines 127-136);
`decode_utf8` stands for `String::from_utf8(bytes).ok()`. -/
def build_request_log (idv methodv pathv : String) (resp : HttpResponse)
    (dur ts : Nat) (req_body : String)
    (decode_utf8 : List Nat → Option String) : RequestLog :=
  { id := idv, method := methodv, path := pathv, status_code := resp.status,
    duration_ms := dur, timestamp := ts, request_body := some req_body,
    response_body := decode_utf8 resp.body }

/-- The handler epilogue (server.rs lines 118-158): split the response
into parts and body bytes, push the record when the log lock is acquired
(`lock_ok`), attempt the observer notification (its success `emit_ok`
only controls a diagnostic print), and rebuild the response from the same
parts and bytes. -/
def handler_finish (resp : HttpResponse) (logs : List RequestLog)
    (lock_ok _emit_ok : Bool) (log : RequestLog) :
    HttpResponse × List RequestLog :=
  let parts := (resp.status, resp.headers)
  let bytes := resp.body
  let logs2 := if lock_ok then push_log logs log else logs
  (⟨parts.1, parts.2, bytes⟩, logs2)

/-! ## Concrete fixtures used by witnesses and counterexamples -/

/-- A parse function standing for `serde_json::from_str` on inputs that
are not valid JSON. -/
def parse0 : String → Option JVal := fun _ => none

/-- Wildcard proxy definition on `/api/*`. -/
def api_wild_mock : MockApi :=
  { id := "ANY /api/*", path := "/api/*", method := "ANY",
    response_body := "http://upstream:9000", status_code := 200,
    response_type := "proxy" }

/-- Wildcard proxy definition on `/api*` (prefix without the slash). -/
def api_star_mock : MockApi :=
  { id := "ANY /api*", path := "/api*", method := "ANY",
    response_body := "http://upstream:9000", status_code := 200,
    response_type := "proxy" }

/-- A `json`-type definition whose body is not valid JSON and whose
configured status code is not a valid HTTP status. -/
def json_bad_mock : MockApi :=
  { id := "GET /j", path := "/j", method := "GET",
    response_body := "oops not json", status_code := 0,
    response_type := "json" }

/-- A family of pairwise distinct request records. -/
def mkLog (i : Nat) : RequestLog :=
  { id := "", method := "GET", path := "/x", status_code := 200,
    duration_ms := 0, timestamp := i, request_body := none,
    response_body := none }

/-- The log buffer after 101 insertions starting from empty. -/
def logs_after_101 : List RequestLog :=
  (List.range 101).foldl (fun l i => push_log l (mkLog i)) []

/-- A query engine fixture. -/
def qengine0 : Unit → EngineResult (List DbRow) := fun _ => .ok []

/-- An execute engine fixture. -/
def xengine0 : Unit → EngineResult Nat := fun _ => .ok 0

/-- The status the spec prescribes for static responders: the configured
code when it is a valid HTTP status, else 200. -/
def valid_status_or_200 (n : Nat) : Nat :=
  if 100 ≤ n ∧ n ≤ 999 then n else 200

/-! ## Theorems -/

theorem getD_status (n : Nat) :
    (status_from_u16 n).getD 200 = valid_status_or_200 n := by
  unfold status_from_u16 valid_status_or_200
  split <;> rfl

theorem mock_response_eq_json (parse : String → Option JVal) (m : MockApi)
    (h : m.response_type = "json") :
    mock_response parse m =
      match parse m.response_body with
      | some j =>
        .response ⟨(status_from_u16 m.status_code).getD 200, .bjson j⟩
      | none =>
        .response ⟨(status_from_u16 m.status_code).getD 200, .btext m.response_body⟩ := by
  obtain ⟨_, _, _, _, _, rt⟩ := m
  subst h
  rfl

theorem mock_response_eq_html (parse : String → Option JVal) (m : MockApi)
    (h : m.response_type = "html") :
    mock_response parse m =
      .response ⟨(status_from_u16 m.status_code).getD 200, .bhtml m.response_body⟩ := by
  obtain ⟨_, _, _, _, _, rt⟩ := m
  subst h
  rfl

theorem mock_response_eq_raw (parse : String → Option JVal) (m : MockApi)
    (h : m.response_type = "raw") :
    mock_response parse m =
      .response ⟨(status_from_u16 m.status_code).getD 200, .btext m.response_body⟩ := by
  obtain ⟨_, _, _, _, _, rt⟩ := m
  subst h
  rfl

theorem wildcard_step (method path : String) (mock : MockApi) :
    (if mock.response_type = "proxy" ∧ ends_with_star mock.path then
      if mock.method = "ANY" ∨ mock.method = method then
        if starts_with path (strip_last mock.path)
        then some (mock.response_body, (strip_last mock.path).length) else none
      else none
    else none)
    = if wildcard_matches method path mock
      then some (mock.response_body, (strip_last mock.path).length) else none := by
  unfold wildcard_matches
  by_cases h1 : mock.response_type = "proxy" <;>
    by_cases h2 : ends_with_star mock.path = true <;>
    by_cases h3 : mock.method = "ANY" ∨ mock.method = method <;>
    by_cases h4 : starts_with path (strip_last mock.path) = true <;>
    simp [h1, h2, h3, h4]

theorem find_wildcard_proxy_eq_find (mocks : Registry) (method path : String) :
    find_wildcard_proxy mocks method path =
      ((mocks.map (fun kv => kv.2)).find? (wildcard_matches method path)).map
        (fun m => (m.response_body, (strip_last m.path).length)) := by
  induction mocks with
  | nil => rfl
  | cons kv rest ih =>
    simp only [find_wildcard_proxy] at ih ⊢
    simp only [List.findSome?_cons, List.map_cons, List.find?_cons]
    rw [wildcard_step method path kv.2]
    cases hw : wildcard_matches method path kv.2 <;> simp [hw, ih]

/-- C2: for every fetched column, the value marshalled to the script is
obtained by attempting, in this exact fixed order, text, 64-bit integer,
floating point, boolean, 16-bit integer, 32-bit integer, taking the first
decode that succeeds; a column for which all six attempts fail is
marshalled as a null value (the spec-ordered decoder and the code's
decoder agree on every column). -/
theorem C2_decode_order (c : RawColumn) :
    decode_column c = decode_column_spec c := by
  obtain ⟨t, a, f, b, s16, s32⟩ := c
  cases t <;> cases a <;> cases f <;> cases b <;> cases s16 <;> cases s32 <;> rfl

/-- C9: the response returned by the handler is the one produced by the
dispatch strategy: status, headers and body bytes are unchanged by the log
capture, ring-buffer push and observer notification, whether or not the
log lock is acquired and whether or not the notification succeeds. -/
theorem C9_handler_preserves_response (resp : HttpResponse)
    (logs : List RequestLog) (lock_ok emit_ok : Bool) (log : RequestLog) :
    (handler_finish resp logs lock_ok emit_ok log).1 = resp := by
  rfl

/-- C10: `db.execute` hands the engine's unsigned 64-bit rows-affected
count to the script after an `as i32` conversion: counts below `2 ^ 31`
arrive exactly, and in general the script sees the unique value in
`[-2 ^ 31, 2 ^ 31)` congruent to the count modulo `2 ^ 32` (the count
wrapped/truncated to 32 bits), not necessarily the true count. -/
theorem C10_execute_count_cast (n : Nat) :
    (∀ {P : Type} (conns : List (String × P)) (pool : P) (name sql : String)
      (engine : P → EngineResult Nat), lookup_pool conns name = some pool →
      engine pool = .ok n → db_execute conns name sql engine = .ok (u64_as_i32 n)) ∧
    (n < 2 ^ 31 → u64_as_i32 n = n) ∧
    (u64_as_i32 n % (2 ^ 32 : Int) = ((n % 2 ^ 32 : Nat) : Int) ∧
      -(2 ^ 31) ≤ u64_as_i32 n ∧ u64_as_i32 n < 2 ^ 31) := by
  have hval : u64_as_i32 n = if n % 2 ^ 32 < 2 ^ 31
      then ((n % 2 ^ 32 : Nat) : Int)
      else ((n % 2 ^ 32 : Nat) : Int) - 2 ^ 32 := rfl
  refine ⟨?_, ?_, ?_⟩
  · intro P conns pool name sql engine hpool hengine
    simp only [db_execute, hpool, hengine]
  · intro h
    rw [hval, Nat.mod_eq_of_lt (by omega), if_pos h]
  · rw [hval]
    by_cases h : n % 2 ^ 32 < 2 ^ 31
    · rw [if_pos h]
      refine ⟨?_, ?_, ?_⟩ <;> push_cast <;> omega
    · rw [if_neg h]
      have hlt : n % 2 ^ 32 < 2 ^ 32 := Nat.mod_lt _ (by norm_num)
      refine ⟨?_, ?_, ?_⟩ <;> push_cast <;> omega

/-- C10 witness: a concrete execute call whose count 5 fits in `i32` and
arrives exactly. -/
theorem C10_execute_count_cast_witness :
    db_execute [("c", Unit.unit)] "c" "UPDATE t SET x = 1"
      (fun _ => EngineResult.ok 5) = Except.ok 5 := by
  have h := C10_execute_count_cast 5
  have h1 := h.1 [("c", Unit.unit)] Unit.unit "c" "UPDATE t SET x = 1"
    (fun _ => EngineResult.ok 5) rfl rfl
  have h2 := h.2.1 (by norm_num)
  rw [h2] at h1
  exact h1

/-- C1: the dispatcher resolves a definition in strict order — exact
lookup of `"METHOD path"`, then of `"ANY path"`, then the scan of all
registered definitions for a proxy-type wildcard whose method is `ANY` or
the request method and whose path minus the trailing `*` is a prefix of
the request path (the code's matcher equals the spec-ordered resolver on
every registry); when none yields a definition the response is 404 with
a body naming the unmatched key. -/
theorem C1_dispatch_precedence (mocks : Registry) (parse : String → Option JVal)
    (method path : String) :
    match_request mocks method path = resolve_spec mocks method path ∧
    (match_request mocks method path = none →
      process_request mocks parse method path =
        .response ⟨404, .btext ("Not Found: " ++ (method ++ " " ++ path))⟩) := by
  constructor
  · unfold match_request resolve_spec
    rw [find_wildcard_proxy_eq_find]
    cases lookup_mock mocks (method ++ " " ++ path)
    · cases lookup_mock mocks ("ANY " ++ path)
      · cases (mocks.map (fun kv => kv.2)).find? (wildcard_matches method path) <;> rfl
      · rfl
    · rfl
  · intro h
    simp only [process_request, h]

/-- C1 witness: on the empty registry every request is answered 404 with
the unmatched key in the body. -/
theorem C1_dispatch_precedence_witness :
    process_request [] parse0 "GET" "/missing" =
      ProcessResult.response ⟨404, .btext ("Not Found: " ++ ("GET" ++ " " ++ "/missing"))⟩ :=
  (C1_dispatch_precedence [] parse0 "GET" "/missing").2 rfl

/-- C4 counterexample: the claim's formula disagrees with the code when
the unmatched suffix consists only of slashes.  With `path = "/api*"`,
`response_body = "http://upstream:9000"` and request path `"/api/"`, the
code forwards to `"http://upstream:9000"` while the claim's
`base ++ slash ++ remainder` formula (the suffix `"/"` is nonempty)
yields `"http://upstream:9000/"`. -/
theorem C4_target_url_counterexample :
    match_request [("ANY /api*", api_star_mock)] "GET" "/api/"
        = some (Matched.wildcard "http://upstream:9000" 4) ∧
      process_request [("ANY /api*", api_star_mock)] parse0 "GET" "/api/"
        = ProcessResult.proxyForward "http://upstream:9000" ∧
      claim_target_url "http://upstream:9000" (str_drop "/api/" 4)
        = "http://upstream:9000/" ∧
      ("http://upstream:9000" : String) ≠ "http://upstream:9000/" := by
  refine ⟨by decide, rfl, by decide, by decide⟩

set_option maxRecDepth 100000 in
/-- C3: the request-log ring buffer holds at most 100 entries (each
insertion preserves the bound), newest first; starting from empty, after
101 insertions the buffer holds 100 entries, the 101st-inserted record is
at the front, and the first-inserted record has been evicted. -/
theorem C3_log_ring_buffer :
    (∀ (logs : List RequestLog) (log : RequestLog), logs.length ≤ 100 →
      (push_log logs log).length ≤ 100) ∧
    logs_after_101.length = 100 ∧
    logs_after_101.head? = some (mkLog 100) ∧
    mkLog 0 ∉ logs_after_101 := by
  refine ⟨?_, by decide, by decide, by decide⟩
  intro logs log h
  simp only [push_log]
  split
  · simp only [List.length_dropLast, List.length_cons]
    omega
  · rename_i hle
    simp only [List.length_cons] at hle ⊢
    omega

/-- C3 witness: one concrete insertion on an in-bound buffer stays in
bound. -/
theorem C3_log_ring_buffer_witness :
    (push_log [] (mkLog 0)).length ≤ 100 :=
  C3_log_ring_buffer.1 [] (mkLog 0) (by decide)

/-- C5: a `json`-type definition whose body does not parse still gets a
response, with the configured body returned raw; every static responder
(`json`, `html`, `raw`) responds with the configured status code when it
is a valid HTTP status and with 200 otherwise. -/
theorem C5_static_fallbacks (parse : String → Option JVal) (m : MockApi) :
    (m.response_type = "json" → parse m.response_body = none →
      mock_response parse m =
        .response ⟨valid_status_or_200 m.status_code, .btext m.response_body⟩) ∧
    (m.response_type = "json" ∨ m.response_type = "html" ∨ m.response_type = "raw" →
      ∃ b, mock_response parse m =
        .response ⟨valid_status_or_200 m.status_code, b⟩) := by
  constructor
  · intro hjson hparse
    rw [mock_response_eq_json parse m hjson, hparse, getD_status]
  · intro hrt
    rcases hrt with h | h | h
    · cases hp : parse m.response_body with
      | none =>
        exact ⟨.btext m.response_body,
          by rw [mock_response_eq_json parse m h, hp, getD_status]⟩
      | some j =>
        exact ⟨.bjson j, by rw [mock_response_eq_json parse m h, hp, getD_status]⟩
    · exact ⟨.bhtml m.response_body, by rw [mock_response_eq_html parse m h, getD_status]⟩
    · exact ⟨.btext m.response_body, by rw [mock_response_eq_raw parse m h, getD_status]⟩

/-- C5 witness: a `json` definition with unparseable body and invalid
configured status 0 responds 200 with the body returned raw. -/
theorem C5_static_fallbacks_witness :
    mock_response parse0 json_bad_mock =
      .response ⟨200, .btext "oops not json"⟩ := by
  have h := (C5_static_fallbacks parse0 json_bad_mock).1 rfl rfl
  simpa [valid_status_or_200] using h

theorem set_status_code_eq (current : Nat) (arg : JsArg) :
    set_status_code current arg = (valid_set_value arg).getD current := by
  cases arg with
  | absent => rfl
  | nonNumeric => rfl
  | numeric code =>
    cases h : status_from_u16 (f64_as_u16 code) <;>
      simp [set_status_code, valid_set_value, h]

theorem js_final_status_eq (calls : List JsArg) :
    ∀ defSt : Nat, js_final_status defSt calls = (last_valid_set calls).getD defSt := by
  induction calls with
  | nil => intro d; rfl
  | cons a cs ih =>
    intro d
    have hrev : last_valid_set (a :: cs)
        = (last_valid_set cs).or (valid_set_value a) := by
      simp only [last_valid_set, List.reverse_cons, List.findSome?_append]
      congr 1
      cases h : valid_set_value a <;> simp [List.findSome?_cons, h]
    have hhead : js_final_status d (a :: cs)
        = js_final_status (set_status_code d a) cs := rfl
    rw [hhead, ih, hrev]
    cases hv : last_valid_set cs <;> simp [hv, set_status_code_eq]

/-- C6: within a js invocation, each `response.setStatusCode(code)` call
replaces the pending status exactly when `code` is numeric and its `u16`
cast is a valid HTTP status, and leaves it unchanged otherwise; the final
status is the last validly set value, or the definition's default status
(itself 200 when the configured code is invalid) when no call validly set
one. -/
theorem C6_set_status_code (m : MockApi) (calls : List JsArg) :
    js_response_status m calls
        = (last_valid_set calls).getD (valid_status_or_200 m.status_code) ∧
    (∀ (current : Nat) (arg : JsArg),
      set_status_code current arg = (valid_set_value arg).getD current) := by
  constructor
  · rw [js_response_status, js_final_status_eq, getD_status]
  · exact set_status_code_eq

/-- C7 counterexample: a string result whose UTF-8 conversion fails (a
lone surrogate) is not returned as the text itself: the code falls
through to the Debug rendering of the value, and the string result has
no text for the claim's parse-or-text rule to produce the body from. -/
theorem C7_string_result_counterexample :
    js_result_response parse0 200 (.vstr lone_surrogate_result)
        = ⟨200, .btext "String(lone surrogate 0xD800)"⟩ ∧
    ¬ ∃ t : String, lone_surrogate_result.utf8 = some t ∧
        js_result_response parse0 200 (.vstr lone_surrogate_result)
          = (match parse0 t with
             | some j => (⟨200, .bjson j⟩ : Resp)
             | none => ⟨200, .btext t⟩) := by
  refine ⟨rfl, ?_⟩
  rintro ⟨t, ht, _⟩
  exact Option.noConfusion ht

/-- C7 as amended: a string result convertible to UTF-8 text is
JSON-parsed and included verbatim when parsing succeeds and returned as
the text itself when it fails; a string result whose text conversion
fails is rendered via the value's default textual (Debug)
representation; an object result becomes its JSON-stringified text; any
other primitive is rendered via its Debug representation. -/
theorem C7_script_result_body (parse : String → Option JVal) (st : Nat) :
    (∀ (sv : StrVal) (t : String) (j : JVal), sv.utf8 = some t → parse t = some j →
      js_result_response parse st (.vstr sv) = ⟨st, .bjson j⟩) ∧
    (∀ (sv : StrVal) (t : String), sv.utf8 = some t → parse t = none →
      js_result_response parse st (.vstr sv) = ⟨st, .btext t⟩) ∧
    (∀ sv : StrVal, sv.utf8 = none →
      js_result_response parse st (.vstr sv) = ⟨st, .btext sv.dbg⟩) ∧
    (∀ (o : ObjVal) (t : String), o.stringified = some t →
      js_result_response parse st (.vobj o) = ⟨st, .btext t⟩) ∧
    (∀ p : PrimVal, js_result_response parse st (.vprim p) = ⟨st, .btext p.dbg⟩) := by
  refine ⟨?_, ?_, ?_, ?_, fun p => rfl⟩
  · intro sv t j ht hp
    simp [js_result_response, ht, hp]
  · intro sv t ht hp
    simp [js_result_response, ht, hp]
  · intro sv h
    simp [js_result_response, h]
  · intro o t h
    simp [js_result_response, h]

/-- C7 witness: a convertible string result that does not parse as JSON
comes back as the text itself. -/
theorem C7_script_result_body_witness :
    js_result_response parse0 200 (.vstr ⟨some "hello", "String(hello)"⟩)
      = ⟨200, .btext "hello"⟩ :=
  (C7_script_result_body parse0 200).2.1 ⟨some "hello", "String(hello)"⟩ "hello" rfl rfl

/-- C8: a `db.query` or `db.execute` against an unregistered connection
name yields a script-catchable error whose message contains the missing
name; an engine failure propagates its message text as a script-catchable
error; and an uncaught script error produces a 500 response naming the
error. -/
theorem C8_db_errors {P : Type} (conns : List (String × P)) (name sql : String)
    (qengine : P → EngineResult (List DbRow)) (xengine : P → EngineResult Nat) :
    (lookup_pool conns name = none →
      db_query conns name sql qengine = .error (connection_not_found_msg name) ∧
      db_execute conns name sql xengine = .error (connection_not_found_msg name)) ∧
    (∀ pool, lookup_pool conns name = some pool →
      (∀ e, qengine pool = .err e → db_query conns name sql qengine = .error e) ∧
      (∀ e, xengine pool = .err e → db_execute conns name sql xengine = .error e)) ∧
    (∃ a b, connection_not_found_msg name = a ++ (name ++ b)) ∧
    (∀ e, (js_error_response e).status = 500 ∧
      (js_error_response e).body = .btext ("JS Error: " ++ e)) := by
  refine ⟨?_, ?_, ?_, fun e => ⟨rfl, rfl⟩⟩
  · intro h
    constructor <;> simp [db_query, db_execute, h]
  · intro pool hp
    constructor <;> intro e he <;> simp [db_query, db_execute, hp, he]
  · refine ⟨"Connection " ++ "'", "'" ++ " not found", ?_⟩
    simp [connection_not_found_msg, String.append_assoc]

/-- C8 witness: a query on the empty connection registry fails with the
message naming the missing connection. -/
theorem C8_db_errors_witness :
    db_query ([] : List (String × Unit)) "missing" "SELECT 1" qengine0
      = .error (connection_not_found_msg "missing") :=
  ((C8_db_errors ([] : List (String × Unit)) "missing" "SELECT 1"
    qengine0 xengine0).1 rfl).1

/-- C4 as amended: the forwarded target URL is `base ++ slash ++
remainder` with `base` the response body minus trailing slashes and
`remainder` the suffix minus leading slashes, except that whenever the
remainder (not merely the suffix) is empty the base is used unmodified;
in particular registering `/api/*` against `http://upstream:9000` and
requesting `/api/users/5` forwards to `http://upstream:9000/users/5`. -/
theorem C4_target_url_amended :
    (∀ base suffix : String,
      build_target_url base suffix = amended_target_url base suffix) ∧
    process_request [("ANY /api/*", api_wild_mock)] parse0 "GET" "/api/users/5"
      = ProcessResult.proxyForward "http://upstream:9000/users/5" := by
  exact ⟨fun _ _ => rfl, rfl⟩
